import Mathlib

/-
Verification of the tracing-gcp examples: context-scoped structured log
emission with trace correlation, in two variants.

Variant "with-log4rs" (ambient context): a tokio `task_local!` slot
`TASK_LOCAL_TRACE_ID : Option<String>` is scoped around async bodies; the
encoder reads it with `try_with(|c| c.clone()).ok().flatten()` and emits one
JSON line per record.

Variant "with-tracing" (call-tree): spans store a `TraceId` extension when
their attributes carry a `trace_id` field; `on_event` walks the event scope
from the root and keeps overwriting the trace with each span's value, so the
span nearest to the event wins.

The embedding below models the carrier state of a logical task as
`Option (Option String)`: `none` means the task-local is not set at all
(no scope / no carrier), `some v` means a scope is active and holds `v`.
-/

namespace TracingGcp

/-- Error returned by tokio's `LocalKey::try_with` when the task-local is not
set for the current task. -/
inductive AccessError
  | notSet
deriving DecidableEq, Repr

/-- Model of `TASK_LOCAL_TRACE_ID.try_with(|c| c.clone())`: fails when no
scope has set the task-local, otherwise returns the stored value. -/
def tryWith : Option (Option String) → Except AccessError (Option String)
  | none => Except.error AccessError.notSet
  | some v => Except.ok v

/-- Model of `TASK_LOCAL_TRACE_ID.try_with(|c| c.clone()).ok().flatten()`
(with-log4rs `encode`, line 34): the trace id visible at a call site. -/
def currentTraceId (env : Option (Option String)) : Option String :=
  (tryWith env).toOption.join

/-- Log level enum; both `log::Level` and `tracing::Level` expose the same
five names through `as_str()`. -/
inductive Level
  | error | warn | info | debug | trace
deriving DecidableEq, Repr

/-- Model of `Level::as_str()`: the uppercase level name. -/
def Level.asStr : Level → String
  | .error => "ERROR"
  | .warn => "WARN"
  | .info => "INFO"
  | .debug => "DEBUG"
  | .trace => "TRACE"

/-- Spec-expected lowercase severity name for each level. -/
def Level.lowerName : Level → String
  | .error => "error"
  | .warn => "warn"
  | .info => "info"
  | .debug => "debug"
  | .trace => "trace"

/-- Model of Rust's `str::to_lowercase` (ASCII suffices for level names). -/
def rustToLowercase (s : String) : String := String.mk (s.data.map Char.toLower)

/-- The literal trace field key used by both encoders. -/
def traceKey : String := "logging.googleapis.com/trace"

/-- The serialized record struct, shared by both variants (with-log4rs lines
23-31, with-tracing lines 69-77). `trace` is skipped when `none`
(`serde(skip_serializing_if = "Option::is_none")`). -/
structure LogEntry where
  severity : String
  message : String
  time : String
  trace : Option String
deriving DecidableEq, Repr

/-- Model of the entry built by `GcpJsonEncoder::encode` (lines 32-38):
severity is the lowercased level name, the trace id is read from the ambient
carrier and formatted as `projects/<project_id>/traces/<trace_id>`. -/
def mkLogEntry (projectId : String) (level : Level) (message time : String)
    (env : Option (Option String)) : LogEntry :=
  { severity := rustToLowercase level.asStr
    message := message
    time := time
    trace := (currentTraceId env).map
      (fun t => "projects/" ++ projectId ++ "/traces/" ++ t) }

/-- Serde serialization of `LogEntry` as an ordered field list; the trace
field is omitted entirely when `none`. -/
def logEntryFields (e : LogEntry) : List (String × String) :=
  [("severity", e.severity), ("message", e.message), ("time", e.time)] ++
    (match e.trace with
      | none => []
      | some t => [(traceKey, t)])

/-- Lowercase hex digit, for serde's `\u00XX` control-character escapes. -/
def hexDigit (n : Nat) : Char :=
  if n < 10 then Char.ofNat (48 + n) else Char.ofNat (87 + n)

/-- Model of serde_json string escaping for one character. -/
def jsonEscapeChar (c : Char) : String :=
  if c = '"' then "\\\""
  else if c = '\\' then "\\\\"
  else if c = '\x08' then "\\b"
  else if c = '\x09' then "\\t"
  else if c = '\x0a' then "\\n"
  else if c = '\x0c' then "\\f"
  else if c = '\x0d' then "\\r"
  else if c.toNat < 32 then
    "\\u00" ++ String.mk [hexDigit (c.toNat / 16), hexDigit (c.toNat % 16)]
  else String.singleton c

/-- JSON string literal with serde escaping. -/
def jsonString (s : String) : String :=
  "\"" ++ String.join (s.data.map jsonEscapeChar) ++ "\""

/-- Render a field list as one compact JSON object. -/
def renderFields (fs : List (String × String)) : String :=
  "\x7b" ++
    String.intercalate "," (fs.map (fun f => jsonString f.1 ++ ":" ++ jsonString f.2)) ++
    "\x7d"

/-- The field list serialized by `GcpJsonEncoder::encode` for one record. -/
def encodeFields (projectId : String) (level : Level) (message time : String)
    (env : Option (Option String)) : List (String × String) :=
  logEntryFields (mkLogEntry projectId level message time env)

/-- The full output of one `encode` call: the JSON object plus the newline
written after it (with-log4rs lines 39-40). -/
def encodeLine (projectId : String) (level : Level) (message time : String)
    (env : Option (Option String)) : String :=
  renderFields (encodeFields projectId level message time env) ++ "\n"

/-- Look up a field by key in a serialized field list. -/
def lookupField (fs : List (String × String)) (k : String) : Option String :=
  (fs.find? (fun f => f.1 == k)).map Prod.snd

/-
Scoped-program semantics for the ambient variant. A `LogProg` is a body of
async code built from log calls, `TASK_LOCAL_TRACE_ID.scope(v, body).await`
blocks, and sequencing; tokio sets the task-local to `v` exactly for the
dynamic extent of the scoped body and restores the previous state afterwards,
which the environment-passing evaluation captures.
-/

/-- Programs over the ambient carrier: a log call, a
`TASK_LOCAL_TRACE_ID.scope(v, body)` block, or sequencing. -/
inductive LogProg
  | log
  | scope (v : Option String) (p : LogProg)
  | seq (p q : LogProg)

/-- Evaluate a program in carrier state `env`, collecting the trace id each
log call observes (the value the encoder would read at that point). -/
def runProg : Option (Option String) → LogProg → List (Option String)
  | env, .log => [currentTraceId env]
  | _, .scope v p => runProg (some v) p
  | env, .seq p q => runProg env p ++ runProg env q

/-
Interleaved scheduling of two logical tasks on a shared worker. tokio's
`task_local!` keeps the scoped value inside the task's own future; each poll
swaps it into the worker thread's slot, runs the body, and swaps it back out.
A schedule is a list of booleans naming which task is polled; each poll
performs at most one pending log call of that task.
-/

/-- Two logical tasks sharing a worker: each carries its own saved carrier
state and a count of pending log calls. -/
structure TwoTasks where
  env1 : Option (Option String)
  env2 : Option (Option String)
  pending1 : Nat
  pending2 : Nat

/-- Run a schedule over two tasks on one worker thread. `slot` is the worker
thread's storage; polling a task swaps its saved state in, performs one log
call (observing the slot), and swaps the previous slot contents back. Returns
the (task, observed trace id) pairs in schedule order. -/
def runSched : List Bool → Option (Option String) → TwoTasks →
    List (Bool × Option String)
  | [], _, _ => []
  | b :: rest, slot, s =>
    if b then
      match s.pending1 with
      | 0 => runSched rest slot s
      | n + 1 =>
        let prev := slot
        let slotIn := s.env1
        (true, currentTraceId slotIn) ::
          runSched rest prev { s with pending1 := n }
    else
      match s.pending2 with
      | 0 => runSched rest slot s
      | n + 1 =>
        let prev := slot
        let slotIn := s.env2
        (false, currentTraceId slotIn) ::
          runSched rest prev { s with pending2 := n }

/-
Timestamp model. The code calls
`Utc::now().to_rfc3339_opts(SecondsFormat::Millis, true)`; chrono renders the
UTC time as `YYYY-MM-DDTHH:MM:SS.sssZ` with zero-padded fixed-width fields
(years outside 0..=9999 would get an explicit sign and more digits; months
etc. out of their calendar ranges would render with more digits, but a real
`DateTime<Utc>` never produces those).
-/

/-- A UTC wall-clock instant broken into the fields chrono renders. -/
structure UtcTime where
  year : Nat
  month : Nat
  day : Nat
  hour : Nat
  minute : Nat
  second : Nat
  milli : Nat
deriving DecidableEq, Repr

/-- Decimal digit character for `n % 10`. -/
def digitChar (n : Nat) : Char := Char.ofNat (48 + n % 10)

/-- Zero-padded minimum-width-2 decimal rendering (chrono numeric items). -/
def zeroPad2 (n : Nat) : List Char :=
  if n < 100 then [digitChar (n / 10), digitChar n] else (Nat.repr n).data

/-- Zero-padded minimum-width-3 decimal rendering (`%3f` milliseconds). -/
def zeroPad3 (n : Nat) : List Char :=
  if n < 1000 then [digitChar (n / 100), digitChar (n / 10), digitChar n]
  else (Nat.repr n).data

/-- Zero-padded minimum-width-4 year rendering; chrono writes years outside
0..=9999 with an explicit sign. -/
def zeroPad4 (n : Nat) : List Char :=
  if n < 10000 then
    [digitChar (n / 1000), digitChar (n / 100), digitChar (n / 10), digitChar n]
  else '+' :: (Nat.repr n).data

/-- Model of `to_rfc3339_opts(SecondsFormat::Millis, true)` on a UTC time:
date, `T`, time, a 3-digit fraction, and the literal `Z` designator. -/
def toRfc3339Millis (t : UtcTime) : String :=
  String.mk
    (zeroPad4 t.year ++ ['-'] ++ zeroPad2 t.month ++ ['-'] ++ zeroPad2 t.day ++
      ['T'] ++ zeroPad2 t.hour ++ [':'] ++ zeroPad2 t.minute ++ [':'] ++
      zeroPad2 t.second ++ ['.'] ++ zeroPad3 t.milli ++ ['Z'])

/-- Character-level check of the pattern
`\d(4)-\d(2)-\d(2)T\d(2):\d(2):\d(2).\d(3)Z`. -/
def isTimePatternChars : List Char → Bool
  | [y1, y2, y3, y4, s1, mo1, mo2, s2, d1, d2, tc, h1, h2, c1, mi1, mi2, c2,
      se1, se2, dot, f1, f2, f3, zc] =>
    y1.isDigit && y2.isDigit && y3.isDigit && y4.isDigit && s1 == '-' &&
      mo1.isDigit && mo2.isDigit && s2 == '-' && d1.isDigit && d2.isDigit &&
      tc == 'T' && h1.isDigit && h2.isDigit && c1 == ':' && mi1.isDigit &&
      mi2.isDigit && c2 == ':' && se1.isDigit && se2.isDigit && dot == '.' &&
      f1.isDigit && f2.isDigit && f3.isDigit && zc == 'Z'
  | _ => false

/-- String-level check of the RFC 3339 millisecond-UTC pattern. -/
def matchesTimePattern (s : String) : Bool := isTimePatternChars s.data

/-
Call-tree variant. `on_new_span` stores a `TraceId` extension when the
span's attributes carry a `trace_id` field (the visitor keeps the last such
field); `on_event` iterates the event scope `from_root()` and overwrites the
trace with each extension found, so the span nearest the event wins. A span
path is represented from the root to the event's span, each node carrying its
stored optional trace id.
-/

/-- Model of `TraceIdVisitor` over a span's attribute list: records the value
of each field named `trace_id`, so the last one wins. -/
def spanStoredTraceId (attrs : List (String × String)) : Option String :=
  attrs.foldl (fun acc f => if f.1 == "trace_id" then some f.2 else acc) none

/-- Model of the `on_event` resolution loop (with-tracing lines 60-68):
walk the path from the root, overwriting the result with each span that
carries a stored trace id. -/
def resolveTrace (pathFromRoot : List (Option String)) : Option String :=
  pathFromRoot.foldl
    (fun acc n => match n with | some t => some t | none => acc) none

/-- Modelled from the spec: `resolve_trace_id` "walks from the given span to
the root, returning the first `trace_id` attribute found" — the first `some`
along the reversed (leaf-to-root) path. -/
def nearestTraceId (pathFromRoot : List (Option String)) : Option String :=
  pathFromRoot.reverse.findSome? id

/-- The trace field value `on_event` computes for a project id and path. -/
def onEventTrace (projectId : String) (pathFromRoot : List (Option String)) :
    Option String :=
  (resolveTrace pathFromRoot).map
    (fun t => "projects/" ++ projectId ++ "/traces/" ++ t)

/-
Serialization outcome model. Both encoders call `.unwrap()` on the
serde_json result (with-log4rs line 39, with-tracing line 83): on `Ok` the
bytes are written followed by a newline, on `Err` the unwrap panics.
-/

/-- What one encode call does to the sink: a finished line, or a panic. -/
inductive EncodeOutcome
  | emitted (line : String)
  | panicked
deriving DecidableEq, Repr

/-- Whether the outcome emitted any line at all. -/
def EncodeOutcome.isEmitted : EncodeOutcome → Bool
  | .emitted _ => true
  | .panicked => false

/-- The encoder body abstracted over the serializer: the code computes
`serde_json::to_vec(&entry)` and `.unwrap()`s it, so an `Err` is a panic and
never reaches the sink; an `Ok` is written followed by the newline. -/
def encodeWithSerializer (ser : LogEntry → Except String String)
    (e : LogEntry) : EncodeOutcome :=
  match ser e with
  | .ok bytes => .emitted (bytes ++ "\n")
  | .error _ => .panicked

/-- The actual serializer: serde_json on a struct of plain strings, which
always succeeds. -/
def serdeToVec (e : LogEntry) : Except String String :=
  .ok (renderFields (logEntryFields e))

/-- A serializer that fails on every entry, to probe the unwrap path. -/
def failingSerializer (e : LogEntry) : Except String String :=
  .error ("serialization failed: " ++ e.message)

/-- A concrete entry used to exercise the serialization outcome model. -/
def probeEntry : LogEntry :=
  { severity := "info"
    message := "Doing something"
    time := "2026-10-12T00:00:00.000Z"
    trace := none }

/-- The nested-scope demo program of claim C2: scope A carrying `"a"`
contains scope B carrying `"b"` followed by a log call, and a final log call
runs after A has exited. -/
def nestedScopesDemo : LogProg :=
  .seq (.scope (some "a") (.seq (.scope (some "b") .log) .log)) .log

/-
Helper lemmas.
-/

/-- Every `digitChar` output is a decimal digit. -/
theorem digitChar_isDigit (n : Nat) : (digitChar n).isDigit = true := by
  have h : n % 10 < 10 := Nat.mod_lt _ (by norm_num)
  unfold digitChar
  set m := n % 10 with hm
  interval_cases m <;> rfl

/-- `findSome?` distributes over list append. -/
theorem findSomeAppend {α β : Type} (f : α → Option β) :
    ∀ l1 l2 : List α,
      (l1 ++ l2).findSome? f =
        match l1.findSome? f with
        | some b => some b
        | none => l2.findSome? f
  | [], _ => rfl
  | a :: l1, l2 => by
    simp only [List.cons_append, List.findSome?]
    cases f a with
    | some b => rfl
    | none => exact findSomeAppend f l1 l2

/-- Characterization of the `on_event` overwrite fold: its result is the last
`some` in the path, with the accumulator as fallback. -/
theorem resolveTraceFoldl (l : List (Option String)) :
    ∀ acc : Option String,
      l.foldl (fun a n => match n with | some t => some t | none => a) acc =
        match l.reverse.findSome? id with
        | some t => some t
        | none => acc := by
  induction l with
  | nil => intro acc; rfl
  | cons n l ih =>
    intro acc
    simp only [List.foldl_cons, List.reverse_cons]
    rw [ih, findSomeAppend]
    cases hr : l.reverse.findSome? id with
    | some t => rfl
    | none => cases n <;> rfl

/-- The code's root-to-leaf overwrite loop computes the nearest-to-the-event
stored trace id. -/
theorem resolveTraceEqNearest (path : List (Option String)) :
    resolveTrace path = nearestTraceId path := by
  unfold resolveTrace nearestTraceId
  rw [resolveTraceFoldl]
  cases hx : path.reverse.findSome? id <;> rfl

/-- Claim C1: while trace id `t` is active and the encoder is configured with
project id `p`, the emitted JSON object contains the field keyed by the
literal string `logging.googleapis.com/trace` whose value is exactly
`projects/` + p + `/traces/` + t; concretely, `info("Doing something")`
inside a scope carrying `"456"` with project `"PROJECT_ID_123"` produces the
JSON line with severity `"info"`, message `"Doing something"` and trace
`"projects/PROJECT_ID_123/traces/456"`. -/
theorem C1_trace_field_in_scope :
    (∀ (p t : String) (l : Level) (msg time : String),
      lookupField (encodeFields p l msg time (some (some t))) traceKey =
        some ("projects/" ++ p ++ "/traces/" ++ t)) ∧
    (∀ time : String,
      encodeFields "PROJECT_ID_123" Level.info "Doing something" time
          (some (some "456")) =
        [("severity", "info"), ("message", "Doing something"), ("time", time),
          ("logging.googleapis.com/trace",
            "projects/PROJECT_ID_123/traces/456")]) ∧
    encodeLine "PROJECT_ID_123" Level.info "Doing something"
        "2026-10-12T00:00:00.000Z" (some (some "456")) =
      "\x7b\"severity\":\"info\",\"message\":\"Doing something\",\"time\":\"2026-10-12T00:00:00.000Z\",\"logging.googleapis.com/trace\":\"projects/PROJECT_ID_123/traces/456\"\x7d\n" := by
  refine ⟨fun p t l msg time => rfl, fun time => rfl, by decide⟩

/-- Claim C2: scope nesting obeys strict stack discipline. In the demo
program, the log inside nested scope B observes `"b"`, the log after B but
inside A observes `"a"`, and the log after A observes no trace; in general,
code sequenced after a scope runs with the outer carrier state, so an exited
scope never leaks its trace id. -/
theorem C2_scope_stack_discipline :
    runProg none nestedScopesDemo = [some "b", some "a", none] ∧
    ∀ (env : Option (Option String)) (v : Option String) (p q : LogProg),
      runProg env (.seq (.scope v p) q) = runProg (some v) p ++ runProg env q :=
  ⟨rfl, fun _ _ _ _ => rfl⟩

/-- Claim C3: the call-tree resolution returns the `trace_id` of the nearest
node on the path from the event's span to the root that carries one (a node's
own value wins over any ancestor's): the overwrite loop equals the
leaf-to-root first-hit walk, a child with no trace id under a parent carrying
`"789"` resolves to `"789"`, and a grandchild carrying `"111"` resolves to
`"111"` regardless of its ancestors. -/
theorem C3_nearest_trace_id_wins :
    (∀ path : List (Option String), resolveTrace path = nearestTraceId path) ∧
    resolveTrace [some "789", none] = some "789" ∧
    (∀ a b : Option String, resolveTrace [a, b, some "111"] = some "111") ∧
    ∀ (p : String) (path : List (Option String)),
      onEventTrace p path =
        (nearestTraceId path).map
          (fun t => "projects/" ++ p ++ "/traces/" ++ t) := by
  refine ⟨resolveTraceEqNearest, rfl, fun a b => ?_, fun p path => ?_⟩
  · rw [resolveTraceEqNearest]; rfl
  · unfold onEventTrace
    rw [resolveTraceEqNearest]

/-- Claim C4: when no trace context is active, the emitted JSON object
contains no trace key at all — the key set is exactly severity, message and
time, and looking up `logging.googleapis.com/trace` finds nothing. -/
theorem C4_no_trace_key_when_absent (p : String) (l : Level)
    (msg time : String) (env : Option (Option String))
    (h : currentTraceId env = none) :
    (encodeFields p l msg time env).map Prod.fst =
      ["severity", "message", "time"] ∧
    lookupField (encodeFields p l msg time env) traceKey = none := by
  have hfields : encodeFields p l msg time env =
      [("severity", rustToLowercase l.asStr), ("message", msg),
        ("time", time)] := by
    simp [encodeFields, mkLogEntry, logEntryFields, h]
  rw [hfields]
  exact ⟨rfl, rfl⟩

/-- Claim C4 witness: outside any scope the carrier reads `none` and the
encoded fields carry no trace key. -/
theorem C4_no_trace_key_when_absent_witness :
    (encodeFields "PROJECT_ID_123" Level.info "Doing something" "t0"
        none).map Prod.fst = ["severity", "message", "time"] ∧
    lookupField
      (encodeFields "PROJECT_ID_123" Level.info "Doing something" "t0" none)
      traceKey = none :=
  C4_no_trace_key_when_absent "PROJECT_ID_123" Level.info "Doing something"
    "t0" none rfl

/-- Claim C6: the ambient lookup is total — it equals the flattening of the
carrier state, returns `none` when called outside any scope (where the raw
`try_with` access is an error), and never fails. -/
theorem C6_lookup_total :
    (∀ env : Option (Option String), currentTraceId env = Option.join env) ∧
    currentTraceId none = none ∧
    tryWith none = Except.error AccessError.notSet := by
  refine ⟨fun env => ?_, rfl, rfl⟩
  cases env <;> rfl

/-- Claim C7: for every level in the supported set, the encoder writes the
severity field as the exact lowercase level name, which contains no uppercase
character. -/
theorem C7_severity_lowercase :
    ∀ (l : Level) (p msg time : String) (env : Option (Option String)),
      lookupField (encodeFields p l msg time env) "severity" =
        some l.lowerName ∧
      l.lowerName.data.all (fun c => !c.isUpper) = true ∧
      rustToLowercase l.asStr = l.lowerName := by
  intro l p msg time env
  cases l <;> exact ⟨rfl, rfl, rfl⟩

/-- Claim C8: the formatted timestamp always matches
`\d(4)-\d(2)-\d(2)T\d(2):\d(2):\d(2).\d(3)Z` for the field ranges a real UTC
clock produces, and the encoder stores it unchanged in the `time` field. -/
theorem C8_time_rfc3339_millis (t : UtcTime) (hy : t.year < 10000)
    (hmo : t.month < 100) (hd : t.day < 100) (hh : t.hour < 100)
    (hmi : t.minute < 100) (hs : t.second < 100) (hms : t.milli < 1000) :
    matchesTimePattern (toRfc3339Millis t) = true ∧
    ∀ (p : String) (l : Level) (msg : String) (env : Option (Option String)),
      lookupField (encodeFields p l msg (toRfc3339Millis t) env) "time" =
        some (toRfc3339Millis t) := by
  constructor
  · unfold matchesTimePattern toRfc3339Millis
    simp only [zeroPad4, zeroPad2, zeroPad3, hy, hmo, hd, hh, hmi, hs, hms,
      if_true]
    simp [isTimePatternChars, digitChar_isDigit]
  · intro p l msg env
    rfl

/-- Claim C8 witness: a concrete in-range UTC instant satisfies the bounds
and its rendering matches the pattern and round-trips through the encoder. -/
theorem C8_time_rfc3339_millis_witness :
    matchesTimePattern
        (toRfc3339Millis ⟨2026, 10, 12, 13, 59, 58, 123⟩) = true ∧
    lookupField
        (encodeFields "PROJECT_ID_123" Level.info "Doing something"
          (toRfc3339Millis ⟨2026, 10, 12, 13, 59, 58, 123⟩) none)
        "time" =
      some (toRfc3339Millis ⟨2026, 10, 12, 13, 59, 58, 123⟩) :=
  ⟨(C8_time_rfc3339_millis ⟨2026, 10, 12, 13, 59, 58, 123⟩ (by decide)
      (by decide) (by decide) (by decide) (by decide) (by decide)
      (by decide)).1,
    (C8_time_rfc3339_millis ⟨2026, 10, 12, 13, 59, 58, 123⟩ (by decide)
      (by decide) (by decide) (by decide) (by decide) (by decide)
      (by decide)).2 "PROJECT_ID_123" Level.info "Doing something" none⟩

/-- Claim C9: under every interleaved schedule of two logical tasks on a
shared worker — one carrying trace id `"456"`, the other `"789"` — every log
call observes its own task's trace id and never the other task's. -/
theorem C9_no_cross_task_observation :
    ∀ (sched : List Bool) (slot : Option (Option String)) (n1 n2 : Nat),
      ((runSched sched slot
          ⟨some (some "456"), some (some "789"), n1, n2⟩).all
        (fun x => x.2 == if x.1 then some "456" else some "789")) = true := by
  intro sched
  induction sched with
  | nil => intro slot n1 n2; rfl
  | cons b rest ih =>
    intro slot n1 n2
    cases b with
    | false =>
      cases n2 with
      | zero => exact ih slot n1 0
      | succ m =>
        show (true &&
          (runSched rest slot
              ⟨some (some "456"), some (some "789"), n1, m⟩).all
            (fun x => x.2 == if x.1 then some "456" else some "789")) = true
        rw [Bool.true_and]
        exact ih slot n1 m
    | true =>
      cases n1 with
      | zero => exact ih slot 0 n2
      | succ m =>
        show (true &&
          (runSched rest slot
              ⟨some (some "456"), some (some "789"), m, n2⟩).all
            (fun x => x.2 == if x.1 then some "456" else some "789")) = true
        rw [Bool.true_and]
        exact ih slot m n2

/-- Claim C10: entering a scope whose value is `none` is observationally
identical to logging outside any scope — every program observes the same
trace ids in both carrier states, the lookup flattens the present-but-empty
slot to `none`, and the emitted fields carry no trace key. -/
theorem C10_scope_none_like_no_scope :
    (∀ p : LogProg, runProg (some none) p = runProg none p) ∧
    currentTraceId (some none) = none ∧
    ∀ (pr : String) (l : Level) (msg time : String),
      (encodeFields pr l msg time (some none)).map Prod.fst =
        ["severity", "message", "time"] := by
  refine ⟨?_, rfl, fun pr l msg time => rfl⟩
  intro p
  induction p with
  | log => rfl
  | scope v q _ => rfl
  | seq p q ihp ihq => simp [runProg, ihp, ihq]

/-- Claim C5 counterexample: when serialization fails, both encoders unwrap
the error — the outcome is a panic and no line (fallback or otherwise) is
emitted, contradicting the claimed fallback-diagnostic behavior. -/
theorem C5_unwrap_panics_counterexample :
    encodeWithSerializer failingSerializer probeEntry =
      EncodeOutcome.panicked ∧
    (encodeWithSerializer failingSerializer probeEntry).isEmitted = false :=
  ⟨rfl, rfl⟩

/-- Claim C5 amended: the serializer the encoders actually call (serde_json
on a struct of plain strings) always succeeds and the record line is emitted;
if serialization did fail, the `.unwrap()` would propagate the failure as a
panic rather than emit a fallback diagnostic line. -/
theorem C5_serialize_ok_or_panic :
    (∀ e : LogEntry,
      encodeWithSerializer serdeToVec e =
        EncodeOutcome.emitted (renderFields (logEntryFields e) ++ "\n")) ∧
    ∀ (ser : LogEntry → Except String String) (e : LogEntry) (msg : String),
      ser e = Except.error msg →
        encodeWithSerializer ser e = EncodeOutcome.panicked := by
  refine ⟨fun e => rfl, fun ser e msg h => ?_⟩
  simp [encodeWithSerializer, h]

/-- Claim C5 amended witness: on the probe entry the real serializer emits
the rendered line, and a failing serializer makes the encoder panic. -/
theorem C5_serialize_ok_or_panic_witness :
    encodeWithSerializer serdeToVec probeEntry =
      EncodeOutcome.emitted (renderFields (logEntryFields probeEntry) ++ "\n") ∧
    encodeWithSerializer failingSerializer probeEntry =
      EncodeOutcome.panicked :=
  ⟨C5_serialize_ok_or_panic.1 probeEntry,
    C5_serialize_ok_or_panic.2 failingSerializer probeEntry
      "serialization failed: Doing something" rfl⟩

end TracingGcp
